import Mathlib

/-!
Shallow embedding of the `usufzan/portico` scraping core:
`src/backend/optimized_scraper.py` (adaptive two-tier workflow, article
validation, metadata-extraction chain) and
`src/backend/free_proxy_manager.py` (free-proxy pool).

External libraries (requests, Playwright, BeautifulSoup, dateutil, aiohttp,
the wall clock and the random generator) are modelled as explicit
environment inputs; repository code is translated line by line.  Machine
floats (`reading_time_minutes`, proxy latency) are modelled as `ℚ`;
wall-clock timestamp fields that no claim mentions
(`retrieval_date_utc`, `performance_metrics`, `last_checked`) are omitted.
-/

namespace Portico

/-! ### Python-style string primitives (ASCII fragment)

`str.split()`, `str.strip()`, `str.lower()` and the `in` substring test,
restricted to ASCII, which is what the configured keyword lists use. -/

/-- Python `str.isspace` characters (ASCII fragment: space, tab, LF, VT,
FF, CR — code points 32, 9, 10, 11, 12, 13). -/
def pyIsSpace (c : Char) : Bool :=
  c.toNat = 32 || c.toNat = 9 || c.toNat = 10 || c.toNat = 11 || c.toNat = 12 || c.toNat = 13

/-- Does `hay` start with `needle`? -/
def startsWithChars : List Char → List Char → Bool
  | _, [] => true
  | [], _ :: _ => false
  | c :: cs, d :: ds => c = d && startsWithChars cs ds

/-- Python `needle in hay` substring test. -/
def containsChars : List Char → List Char → Bool
  | [], needle => needle.isEmpty
  | c :: rest, needle => startsWithChars (c :: rest) needle || containsChars rest needle

/-- Python `str.lower()` (ASCII case folding). -/
def strLower (l : List Char) : List Char := l.map Char.toLower

/-- Python `str.strip()` on the ASCII whitespace set. -/
def pyStrip (l : List Char) : List Char :=
  ((l.dropWhile pyIsSpace).reverse.dropWhile pyIsSpace).reverse

/-- Python `str.strip()` on `String`s. -/
def pyStripS (s : String) : String := ⟨pyStrip s.data⟩

/-- Accumulator-based splitter behind `pyWords`: `acc` holds the reversed
current word. -/
def pyWordsAux : List Char → List Char → List (List Char)
  | [], acc => if acc.isEmpty then [] else [acc.reverse]
  | c :: cs, acc =>
    if pyIsSpace c then
      if acc.isEmpty then pyWordsAux cs [] else acc.reverse :: pyWordsAux cs []
    else pyWordsAux cs (c :: acc)

/-- Python `str.split()` with no argument: maximal runs of non-whitespace. -/
def pyWords (l : List Char) : List (List Char) := pyWordsAux l []

/-! ### Data model of `optimized_scraper.py` -/

/-- Constant `UNKNOWN_AUTHOR` (line 23 of the source). -/
def UNKNOWN_AUTHOR : String := "Unknown"

/-- Constant `DATE_NOT_APPLICABLE` (line 24). -/
def DATE_NOT_APPLICABLE : String := "N/A"

/-- Constant `MINIMUM_CONTENT_LENGTH` (line 25), in characters. -/
def MINIMUM_CONTENT_LENGTH : Nat := 250

/-- Constant `DECOY_PAGE_KEYWORDS` (line 26). -/
def DECOY_PAGE_KEYWORDS : List String :=
  ["page not found", "page non trouvée", "enable javascript", "checking your browser"]

/-- The `WorkflowStage` enum, constructors in source declaration order. -/
inductive WorkflowStage where
  | initialization
  | fast_path
  | robust_path
  | navigation
  | content_extraction
  | metadata_extraction
  | validation
  | completion
deriving DecidableEq

/-- `WorkflowStage.value`: the string payload of each enum member. -/
def WorkflowStage.value : WorkflowStage → String
  | .initialization => "initialization"
  | .fast_path => "fast_path"
  | .robust_path => "robust_path"
  | .navigation => "navigation"
  | .content_extraction => "content_extraction"
  | .metadata_extraction => "metadata_extraction"
  | .validation => "validation"
  | .completion => "completion"

/-- `list(WorkflowStage)` in declaration order. -/
def WorkflowStage.all : List WorkflowStage :=
  [.initialization, .fast_path, .robust_path, .navigation,
   .content_extraction, .metadata_extraction, .validation, .completion]

/-- `[stage.value for stage in WorkflowStage]` (source line 507). -/
def WorkflowStage.allNames : List String := WorkflowStage.all.map WorkflowStage.value

/-- The `ScraperError` exception hierarchy: one constructor per class, each
carrying the exception message (`str(e)`). -/
inductive ScraperExc where
  | scraperError (msg : String)
  | navigationError (msg : String)
  | contentExtractionError (msg : String)
  | decoyPageError (msg : String)
  | validationError (msg : String)
deriving DecidableEq

/-- `type(e).__name__` for a `ScraperError` instance. -/
def ScraperExc.typeName : ScraperExc → String
  | .scraperError _ => "ScraperError"
  | .navigationError _ => "NavigationError"
  | .contentExtractionError _ => "ContentExtractionError"
  | .decoyPageError _ => "DecoyPageError"
  | .validationError _ => "ValidationError"

/-- `str(e)` for a `ScraperError` instance. -/
def ScraperExc.message : ScraperExc → String
  | .scraperError m => m
  | .navigationError m => m
  | .contentExtractionError m => m
  | .decoyPageError m => m
  | .validationError m => m

/-- `isinstance(e, ContentExtractionError)`: true for
`ContentExtractionError` and its subclass `DecoyPageError` (lines 44-45). -/
def ScraperExc.isContentExtraction : ScraperExc → Bool
  | .contentExtractionError _ => true
  | .decoyPageError _ => true
  | _ => false

/-- A Python exception as seen by the workflow: either a `ScraperError`
subclass or any other exception (requests/Playwright/standard errors). -/
inductive PyExc where
  | scraper (e : ScraperExc)
  | other (msg : String)
deriving DecidableEq

/-- `str(e)` for any exception. -/
def PyExc.message : PyExc → String
  | .scraper e => e.message
  | .other m => m

/-- The `Metadata` dataclass (lines 48-55), with `reading_time_minutes : ℚ`
standing in for the Python float. -/
structure Metadata where
  author : String := UNKNOWN_AUTHOR
  publication_date_utc : String := DATE_NOT_APPLICABLE
  author_found_by : Option String := none
  date_found_by : Option String := none
  word_count : Nat := 0
  reading_time_minutes : ℚ := 0
deriving DecidableEq

/-- The `Article` dataclass (lines 57-67); the `content` dict is flattened
into its two keys, and `retrieval_date_utc` / `performance_metrics`
(wall-clock data) are omitted. -/
structure Article where
  url : String
  domain : String
  title : String
  metadata : Metadata
  content_markdown : String
  content_clean_html : String
  scraped_with : String := "N/A"
  workflow_stages : List String := []
deriving DecidableEq

/-- The `WorkflowOutput` dataclass (lines 69-78); `performance_metrics`
(wall-clock data) is omitted. -/
structure WorkflowOutput where
  status : String
  stage : String
  total_stages : Nat
  current_stage : Nat
  message : String
  data : Option Article := none
  error : Option String := none
deriving DecidableEq

/-- `_create_workflow_output` (lines 266-286), argument order as in the
source: status, stage, current_stage, total_stages, message, data, error. -/
def mkOutput (status : String) (stage : WorkflowStage) (current_stage total_stages : Nat)
    (message : String) (data : Option Article := none) (error : Option String := none) :
    WorkflowOutput :=
  { status := status, stage := stage.value, total_stages := total_stages,
    current_stage := current_stage, message := message, data := data, error := error }

/-- `_validate_article` (lines 579-592): decoy checks on the lowercased
markdown, then word count and reading time.  The Python method mutates the
article's metadata in place; here the updated article is returned. -/
def validateArticle (a : Article) : Except ScraperExc Article :=
  if (strLower a.content_markdown.data).length < MINIMUM_CONTENT_LENGTH then
    .error (.decoyPageError
      ("Content too short (" ++ toString (strLower a.content_markdown.data).length ++
        " chars). Likely a block page."))
  else if DECOY_PAGE_KEYWORDS.any
      (fun k => containsChars (strLower a.content_markdown.data) k.data) then
    .error (.decoyPageError "Decoy page keyword found. Content likely blocked.")
  else
    .ok { a with metadata :=
      { a.metadata with
        word_count := (pyWords (strLower a.content_markdown.data)).length,
        reading_time_minutes :=
          max 1 (((pyWords (strLower a.content_markdown.data)).length : ℚ) / 200) } }

/-! ### The adaptive workflow `OptimizedUniversalScraper.run`

The scraper is run with its default configuration (`retry_attempts = 2`,
`total_stages = 6`).  Outcomes of external calls — `urlparse`,
`requests.get`, Playwright operations and the BeautifulSoup-based
`_parse_html_content` — are supplied by an environment record; the
workflow's own control flow, event construction and exception handling are
translated from the source. -/

/-- The data `_parse_html_content` (lines 594-649) feeds into its final
`Article(...)` constructor call.  The HTML analysis itself (BeautifulSoup,
readability, markdownify) is external and is supplied by the environment. -/
structure ParsedPage where
  url : String
  domain : String
  title : String
  markdown : String
  clean_html : String
  metadata : Metadata
deriving DecidableEq

/-- The `Article(...)` constructor call ending `_parse_html_content`
(lines 642-649): `scraped_with` and `workflow_stages` keep their dataclass
defaults `"N/A"` and `[]`. -/
def mkArticle (p : ParsedPage) : Article :=
  { url := p.url, domain := p.domain, title := p.title, metadata := p.metadata,
    content_markdown := p.markdown, content_clean_html := p.clean_html }

instance {ε α : Type} [DecidableEq ε] [DecidableEq α] : DecidableEq (Except ε α)
  | .error a, .error b =>
    if h : a = b then .isTrue (by rw [h]) else .isFalse (by simp [h])
  | .error _, .ok _ => .isFalse (by simp)
  | .ok _, .error _ => .isFalse (by simp)
  | .ok a, .ok b =>
    if h : a = b then .isTrue (by rw [h]) else .isFalse (by simp [h])

/-- One attempt of the fast path: the outcome of
`requests.get` + `raise_for_status` (error = the `RequestException`
message), and the outcome of `_parse_html_content` on the response body. -/
structure FastAttempt where
  fetch : Except String String
  parsed : Except PyExc ParsedPage
deriving DecidableEq

/-- The body shared by both loop iterations of `_run_fast_path`
(lines 362-368): parse the fetched HTML, mark it as scraped with
`requests`, validate. -/
def fastAttemptBody (att : FastAttempt) : Except PyExc Article :=
  match att.parsed with
  | .error e => .error e
  | .ok p =>
    match validateArticle { mkArticle p with scraped_with := "requests" } with
    | .error e => .error (.scraper e)
    | .ok article2 => .ok article2

/-- `_run_fast_path` (lines 345-373) at the default `retry_attempts = 2`:
a `RequestException` on the first attempt is retried; on the last attempt
it becomes a `NavigationError`; all other failures propagate at once. -/
def runFastPath (att1 att2 : FastAttempt) : Except PyExc Article :=
  match att1.fetch with
  | .ok _ => fastAttemptBody att1
  | .error _ =>
    match att2.fetch with
    | .ok _ => fastAttemptBody att2
    | .error m =>
      .error (.scraper (.navigationError
        ("Requests failed to fetch URL after 2 attempts: " ++ m)))

/-- Environment of `_run_robust_path` (lines 375-532): whether the browser
was initialized, and the outcomes of context setup, navigation,
`page.content()` and `_parse_html_content`. -/
structure RobustEnv where
  browserUp : Bool
  contextSetup : Except PyExc Unit
  navigation : Except PyExc Unit
  pageContent : Except PyExc String
  parsed : Except PyExc ParsedPage
deriving DecidableEq

/-- The two `except` clauses of `_run_robust_path` (lines 518-529):
`ScraperError`s are reported with their class name, anything else as an
unexpected error, both at the stage counter reached so far. -/
def robustCatch (e : PyExc) (current_stage total_stages : Nat) : WorkflowOutput :=
  match e with
  | .scraper se =>
    mkOutput "error" .robust_path current_stage total_stages
      ("Scraper error: " ++ se.typeName) none (some se.message)
  | .other m =>
    mkOutput "error" .robust_path current_stage total_stages
      "Unexpected error occurred" none (some m)

/-- `_run_robust_path` (lines 375-532) as the list of events it yields. -/
def runRobustPath (env : RobustEnv) (start_stage total_stages : Nat) : List WorkflowOutput :=
  if ¬env.browserUp then
    [mkOutput "error" .robust_path start_stage total_stages
      "Browser not initialized" none (some "Browser initialization failed")]
  else
    mkOutput "progress" .robust_path (start_stage + 1) total_stages
      "Creating optimized browser context..." ::
    match env.contextSetup with
    | .error e => [robustCatch e (start_stage + 1) total_stages]
    | .ok _ =>
      mkOutput "progress" .navigation (start_stage + 2) total_stages
        "Navigating with full browser capabilities..." ::
      match env.navigation with
      | .error e => [robustCatch e (start_stage + 2) total_stages]
      | .ok _ =>
        mkOutput "progress" .content_extraction (start_stage + 3) total_stages
          "Extracting page content..." ::
        match env.pageContent with
        | .error e => [robustCatch e (start_stage + 3) total_stages]
        | .ok _ =>
          mkOutput "progress" .metadata_extraction (start_stage + 4) total_stages
            "Processing content and extracting metadata..." ::
          match env.parsed with
          | .error e => [robustCatch e (start_stage + 4) total_stages]
          | .ok p =>
            match validateArticle { mkArticle p with
              scraped_with := "playwright",
              workflow_stages := WorkflowStage.allNames } with
            | .error e => [robustCatch (.scraper e) (start_stage + 4) total_stages]
            | .ok article2 =>
              [mkOutput "complete" .completion total_stages total_stages
                "Robust path completed successfully" (some article2)]

/-- Outcome of `urlparse(url)`: either an exception or a result with its
`scheme` and `netloc` components. -/
inductive ParseOutcome where
  | raised (msg : String)
  | parsed (scheme netloc : String)
deriving DecidableEq

/-- Environment of one `run` call: the `urlparse` outcome, the two fast-path
attempts and the robust-path environment. -/
structure Env where
  parse : ParseOutcome
  attempt1 : FastAttempt
  attempt2 : FastAttempt
  robust : RobustEnv
deriving DecidableEq

/-- Result of `run`: the yielded events, plus counters for how many times
each network tier was entered (`_run_fast_path` / `_run_robust_path`
invocations — all network I/O of `run` happens inside these two). -/
structure RunResult where
  events : List WorkflowOutput
  fastCalls : Nat
  robustCalls : Nat
deriving DecidableEq

/-- The stage-1 progress event of `run` (lines 297-301). -/
def initEvent : WorkflowOutput :=
  mkOutput "progress" .initialization 1 6 "Initializing scraper and validating URL..."

/-- The terminal validation-failure event of `run` (lines 308-313). -/
def validationFailedEvent (msg : String) : WorkflowOutput :=
  mkOutput "error" .initialization 1 6 "URL validation failed" none (some msg)

/-- The stage-2 progress event of `run` (lines 316-320). -/
def fastPathEvent : WorkflowOutput :=
  mkOutput "progress" .fast_path 2 6 "Attempting fast scrape with requests..."

/-- The escalation progress event of `run` (lines 336-339). -/
def escalationEvent (msg : String) : WorkflowOutput :=
  mkOutput "progress" .fast_path 2 6
    "Fast scrape failed, escalating to robust path..." none (some msg)

/-- `OptimizedUniversalScraper.run` (lines 289-343) with
`total_stages = 6`: initialization and URL validation, fast-path attempt,
escalation on any fast-path exception, then the robust path. -/
def run (env : Env) : RunResult :=
  match env.parse with
  | .raised m => ⟨[initEvent, validationFailedEvent m], 0, 0⟩
  | .parsed scheme netloc =>
    if scheme = "" ∨ netloc = "" then
      ⟨[initEvent, validationFailedEvent "Invalid URL format"], 0, 0⟩
    else
      match runFastPath env.attempt1 env.attempt2 with
      | .ok article =>
        let article2 := { article with workflow_stages := article.workflow_stages ++ ["fast_path"] }
        ⟨[initEvent, fastPathEvent,
          mkOutput "complete" .completion 6 6 "Fast path successful" (some article2)], 1, 0⟩
      | .error e =>
        ⟨[initEvent, fastPathEvent, escalationEvent e.message] ++
          runRobustPath env.robust 2 6, 1, 1⟩

/-- A terminal event: status `complete` or `error` (anything but a
progress update). -/
def isTerminal (e : WorkflowOutput) : Bool :=
  e.status == "complete" || e.status == "error"

/-! ### The metadata-extraction chain

`_extract_universal_metadata` and its three strategies (lines 651-742).
The BeautifulSoup document is abstracted into the observations the
strategies make of it: the decoded JSON-LD script blocks (after the
list/`@graph` unwrapping, with a parse/unwrap exception folded into
`none`), a `select_one` view of meta-tag `content` attributes, and the
`datetime` attributes of `<time datetime=...>` tags.  `dateutil`'s
`parse` is an external lenient parser, passed in as a function returning
`none` when it would raise. -/

/-- A JSON value found under the `author` key of a JSON-LD block: a dict
(its string entries), a list, or a plain string. -/
inductive AuthorVal where
  | adict (entries : List (String × String))
  | alist (items : List AuthorVal)
  | astr (s : String)

/-- Python truthiness of an `author` value: empty dict, list and string
are falsy. -/
def AuthorVal.truthy : AuthorVal → Bool
  | .adict es => ¬es.isEmpty
  | .alist is => ¬is.isEmpty
  | .astr s => s ≠ ""

/-- Stand-in for Python `str()` applied to a non-string author entry (only
its totality matters; no claim inspects the rendering). -/
def AuthorVal.pyToString : AuthorVal → String
  | .astr s => s
  | .adict es => "\x7b" ++ String.intercalate ", " (es.map fun e => e.1 ++ ": " ++ e.2) ++ "\x7d"
  | .alist is => "[" ++ String.intercalate ", " (is.map fun i =>
      match i with
      | .astr s => s
      | _ => "...") ++ "]"

/-- `_extract_author_name` (lines 691-703): dict → its `name` entry,
non-empty list → first item's `name` or its `str()`, string → itself. -/
def extractAuthorName : AuthorVal → Option String
  | .adict es => es.lookup "name"
  | .alist [] => none
  | .alist (first :: _) =>
    match first with
    | .adict es => es.lookup "name"
    | v => some v.pyToString
  | .astr s => some s

/-- One JSON-LD block as seen after `json.loads` and the list/`@graph`
unwrapping of lines 672-676: its `author` and `datePublished` fields. -/
structure JsonLdData where
  author : Option AuthorVal := none
  datePublished : Option String := none

/-- The observations the metadata strategies make of the soup: decoded
JSON-LD blocks (`none` = `json.loads`/unwrap raised), `select_one`
results for meta selectors (the tag's `content` attribute, or `none` when
no tag matches), and the `datetime` attributes of `find_all('time',
datetime=True)`. -/
structure SoupModel where
  jsonLd : List (Option JsonLdData)
  selectMeta : String → Option String
  timeDatetimes : List String

/-- The author meta-tag selector list of `_strategy_extract_from_tags`
(lines 708-711). -/
def authorMetaSelectors : List String :=
  ["meta[name='author']", "meta[name='dc.creator']",
   "meta[property='article:author']", "meta[property='og:author']"]

/-- The date meta-tag selector list of `_strategy_extract_from_tags`
(lines 718-722). -/
def dateMetaSelectors : List String :=
  ["meta[name='date']", "meta[name='dc.date']",
   "meta[property='article:published_time']", "meta[property='og:published_time']",
   "meta[name='publish_date']", "meta[name='pubdate']"]

/-- Processing of one JSON-LD block inside the tag loop of
`_strategy_extract_from_json_ld` (lines 670-689).  A date-parse exception
aborts the rest of the block but keeps an author already assigned, exactly
like the `except ... continue` in the source. -/
def jsonLdStep (parseDate : String → Option String) (m : Metadata)
    (tag : Option JsonLdData) : Metadata :=
  match tag with
  | none => m
  | some data =>
    let m1 :=
      match data.author with
      | some av =>
        if m.author = UNKNOWN_AUTHOR ∧ av.truthy then
          match extractAuthorName av with
          | some nm =>
            if nm ≠ "" then { m with author := nm, author_found_by := some "json-ld" } else m
          | none => m
        else m
      | none => m
    match data.datePublished with
    | some d =>
      if m1.publication_date_utc = DATE_NOT_APPLICABLE ∧ d ≠ "" then
        match parseDate d with
        | some iso => { m1 with publication_date_utc := iso, date_found_by := some "json-ld" }
        | none => m1
      else m1
    | none => m1

/-- `_strategy_extract_from_json_ld` (lines 668-689): fold the block
processor over every JSON-LD script tag. -/
def strategyFromJsonLd (parseDate : String → Option String)
    (tags : List (Option JsonLdData)) (m : Metadata) : Metadata :=
  tags.foldl (jsonLdStep parseDate) m

/-- The selector loop of lines 712-715: first selector whose tag exists
and whose stripped `content` is non-empty. -/
def firstMetaContent (soup : SoupModel) : List String → Option String
  | [] => none
  | sel :: rest =>
    match soup.selectMeta sel with
    | some raw =>
      let c := pyStripS raw
      if c ≠ "" then some c else firstMetaContent soup rest
    | none => firstMetaContent soup rest

/-- The date selector loop of lines 723-729: first selector whose stripped
`content` is non-empty and parses; a parse exception moves on. -/
def firstMetaDate (soup : SoupModel) (parseDate : String → Option String) :
    List String → Option String
  | [] => none
  | sel :: rest =>
    match soup.selectMeta sel with
    | some raw =>
      let c := pyStripS raw
      if c ≠ "" then
        match parseDate c with
        | some iso => some iso
        | none => firstMetaDate soup parseDate rest
      else firstMetaDate soup parseDate rest
    | none => firstMetaDate soup parseDate rest

/-- The author block of `_strategy_extract_from_tags` (lines 707-715). -/
def strategyTagsAuthor (soup : SoupModel) (m : Metadata) : Metadata :=
  if m.author = UNKNOWN_AUTHOR then
    match firstMetaContent soup authorMetaSelectors with
    | some content => { m with author := content, author_found_by := some "meta-tag" }
    | none => m
  else m

/-- The date block of `_strategy_extract_from_tags` (lines 717-729). -/
def strategyTagsDate (soup : SoupModel) (parseDate : String → Option String)
    (m : Metadata) : Metadata :=
  if m.publication_date_utc = DATE_NOT_APPLICABLE then
    match firstMetaDate soup parseDate dateMetaSelectors with
    | some iso => { m with publication_date_utc := iso, date_found_by := some "meta-tag" }
    | none => m
  else m

/-- `_strategy_extract_from_tags` (lines 705-729): the author block, then
the date block. -/
def strategyFromTags (soup : SoupModel) (parseDate : String → Option String)
    (m : Metadata) : Metadata :=
  strategyTagsDate soup parseDate (strategyTagsAuthor soup m)

/-- The time-tag loop of `_strategy_extract_from_attributes`
(lines 735-742): first `datetime` attribute that is non-empty after
stripping and parses. -/
def firstTimeDate (parseDate : String → Option String) : List String → Option String
  | [] => none
  | t :: rest =>
    let c := pyStripS t
    if c ≠ "" then
      match parseDate c with
      | some iso => some iso
      | none => firstTimeDate parseDate rest
    else firstTimeDate parseDate rest

/-- `_strategy_extract_from_attributes` (lines 731-742). -/
def strategyFromAttributes (soup : SoupModel) (parseDate : String → Option String)
    (m : Metadata) : Metadata :=
  if m.publication_date_utc = DATE_NOT_APPLICABLE then
    match firstTimeDate parseDate soup.timeDatetimes with
    | some iso => { m with publication_date_utc := iso, date_found_by := some "time-tag" }
    | none => m
  else m

/-- `_extract_universal_metadata` (lines 651-666): JSON-LD first, then
meta tags if a field is still unresolved, then HTML attributes if the
date is still unresolved. -/
def extractUniversalMetadata (soup : SoupModel) (parseDate : String → Option String) :
    Metadata :=
  let m1 := strategyFromJsonLd parseDate soup.jsonLd {}
  let m2 :=
    if m1.author = UNKNOWN_AUTHOR ∨ m1.publication_date_utc = DATE_NOT_APPLICABLE then
      strategyFromTags soup parseDate m1
    else m1
  if m2.publication_date_utc = DATE_NOT_APPLICABLE then
    strategyFromAttributes soup parseDate m2
  else m2

/-! ### The free-proxy manager

`free_proxy_manager.py`.  Network probes (`aiohttp` requests), the wall
clock and the random generator are environment inputs: a validation
outcome carries the measured latency on success, timestamps are rational
"minutes", and selection takes the index the weighted random draw lands
on.  `validate_proxies` runs its probes under a concurrency gate and
collects workers in completion order; the environment fixes that order by
listing outcomes positionally.  Python aliasing (validating a record that
also sits in the working list mutates it there) is modelled by the
`validateMember` operation. -/

/-- The `ProxyInfo` dataclass (lines 20-32); `speed : Option ℚ` stands in
for the float latency and `last_checked` (wall clock) is omitted. -/
structure ProxyInfo where
  ip : String
  port : Nat
  protocol : String
  country : Option String := none
  anonymity : Option String := none
  speed : Option ℚ := none
  is_working : Bool := false
  fail_count : Nat := 0
  success_count : Nat := 0
deriving DecidableEq

/-- The `f"{proxy.ip}:{proxy.port}"` key used by the failed set and the
deduplicator. -/
def proxyKey (p : ProxyInfo) : String := p.ip ++ ":" ++ toString p.port

/-- Manager state: `working_proxies`, the `failed_proxies` set (modelled
as a duplicate-free list of keys) and `last_fetch`.  The `proxies` field
of the class is written once and never read, and is omitted. -/
structure MgrState where
  working_proxies : List ProxyInfo := []
  failed_proxies : List String := []
  last_fetch : Option ℚ := none
deriving DecidableEq

/-- `fetch_interval = timedelta(minutes=30)` (line 45), in minutes. -/
def fetch_interval : ℚ := 30

/-- `max_proxies = 50` (line 46). -/
def max_proxies : Nat := 50

/-- Python `set.add`. -/
def insertKey (k : String) (l : List String) : List String :=
  if l.contains k then l else l ++ [k]

/-- Outcome of one network probe through a proxy: HTTP 200 with the
measured latency, or any exception/non-200. -/
inductive ValOutcome where
  | ok (latency : ℚ)
  | err
deriving DecidableEq

/-- Result of `validate_proxy`: the (possibly mutated) record, the new
manager state, the returned boolean, and whether a network probe was
actually issued. -/
structure ValResult where
  proxy : ProxyInfo
  state : MgrState
  result : Bool
  probed : Bool
deriving DecidableEq

/-- `validate_proxy` (lines 224-256): a known-bad key short-circuits with
no probe; success records latency and bumps the success counter; failure
bumps the fail counter and, from the 3rd failure on, adds the key to the
failed set. -/
def validate_proxy (st : MgrState) (p : ProxyInfo) (outcome : ValOutcome) : ValResult :=
  if st.failed_proxies.contains (proxyKey p) then
    ⟨p, st, false, false⟩
  else
    match outcome with
    | .ok lat =>
      ⟨{ p with
          speed := some lat,
          is_working := true,
          success_count := p.success_count + 1 }, st, true, true⟩
    | .err =>
      let p2 := { p with fail_count := p.fail_count + 1, is_working := false }
      let st2 :=
        if 3 ≤ p2.fail_count then
          { st with failed_proxies := insertKey (proxyKey p2) st.failed_proxies }
        else st
      ⟨p2, st2, false, true⟩

/-- `validate_proxies` (lines 258-281): probe each candidate (outcomes are
read positionally, modelling one completion order of the gated concurrent
probes) and collect the records whose probe succeeded.  Returns the new
state, the working sublist and the number of probes issued. -/
def validate_proxies (st : MgrState) :
    List ProxyInfo → List ValOutcome → MgrState × List ProxyInfo × Nat
  | [], _ => (st, [], 0)
  | p :: ps, outs =>
    let r := validate_proxy st p (outs.headD .err)
    let rest := validate_proxies r.state ps outs.tail
    (rest.1, (if r.result then [r.proxy] else []) ++ rest.2.1,
      rest.2.2 + (if r.probed then 1 else 0))

/-- `_remove_duplicates` (lines 211-222) with its running `seen` set. -/
def removeDuplicatesAux (seen : List String) : List ProxyInfo → List ProxyInfo
  | [] => []
  | p :: ps =>
    if seen.contains (proxyKey p) then removeDuplicatesAux seen ps
    else p :: removeDuplicatesAux (proxyKey p :: seen) ps

/-- `_remove_duplicates` (lines 211-222): keep the first record per
`ip:port` key. -/
def removeDuplicates (ps : List ProxyInfo) : List ProxyInfo := removeDuplicatesAux [] ps

/-- A row parsed out of a proxy-list source (lines 96-209): the sources
construct `ProxyInfo` records with default counters and no latency. -/
structure Candidate where
  ip : String
  port : Nat
  protocol : String
  country : Option String := none
  anonymity : Option String := none
deriving DecidableEq

/-- The `ProxyInfo(...)` constructor call each source performs. -/
def mkCandidateProxy (c : Candidate) : ProxyInfo :=
  { ip := c.ip, port := c.port, protocol := c.protocol,
    country := c.country, anonymity := c.anonymity }

/-- `fetch_proxies_from_sources` (lines 54-94): the union of the source
rows (supplied by the environment, source failures already dropped),
deduplicated by key. -/
def fetch_proxies_from_sources (rows : List Candidate) : List ProxyInfo :=
  removeDuplicates (rows.map mkCandidateProxy)

/-- The second component of the Python sort key
`(p.success_count, -p.speed if p.speed else 0)`: a falsy (absent or zero)
latency contributes `0`. -/
def sortKeySnd (p : ProxyInfo) : ℚ :=
  match p.speed with
  | some s => if s = 0 then 0 else -s
  | none => 0

/-- The ranking of `all_working.sort(key=..., reverse=True)` (line 307):
success count descending, then the second key component descending
(latency ascending). -/
def proxyRank (a b : ProxyInfo) : Prop :=
  b.success_count < a.success_count ∨
    (a.success_count = b.success_count ∧ sortKeySnd b ≤ sortKeySnd a)

instance : DecidableRel proxyRank := fun a b => by
  unfold proxyRank; infer_instance

instance : IsTotal ProxyInfo proxyRank where
  total a b := by
    unfold proxyRank
    rcases lt_trichotomy a.success_count b.success_count with h | h | h
    · exact Or.inr (Or.inl h)
    · rcases le_total (sortKeySnd b) (sortKeySnd a) with h2 | h2
      · exact Or.inl (Or.inr ⟨h, h2⟩)
      · exact Or.inr (Or.inr ⟨h.symm, h2⟩)
    · exact Or.inl (Or.inl h)

instance : IsTrans ProxyInfo proxyRank where
  trans a b c hab hbc := by
    unfold proxyRank at *
    rcases hab with h1 | ⟨h1, h1q⟩ <;> rcases hbc with h2 | ⟨h2, h2q⟩
    · exact Or.inl (h2.trans h1)
    · exact Or.inl (h2 ▸ h1)
    · exact Or.inl (h1 ▸ h2)
    · exact Or.inr ⟨h1.trans h2, h2q.trans h1q⟩

/-- The stable descending sort of line 307, modelled by the (stable)
insertion sort on the ranking. -/
def sortWorking (l : List ProxyInfo) : List ProxyInfo := List.insertionSort proxyRank l

/-- Result of `refresh_proxies`: the new state, the returned list, whether
candidates were fetched, and the number of validation probes issued. -/
structure RefreshResult where
  state : MgrState
  result : List ProxyInfo
  fetchedSources : Bool
  probes : Nat
deriving DecidableEq

/-- `refresh_proxies` (lines 283-314): cooldown short-circuit, fetch,
empty-fetch fallback, validation, merge with the previous working set,
dedup, rank, truncate to the cap, stamp `last_fetch`. -/
def refresh_proxies (st : MgrState) (now : ℚ) (rows : List Candidate)
    (outs : List ValOutcome) (force : Bool) : RefreshResult :=
  if ¬force ∧ (match st.last_fetch with
               | some t => decide (now - t < fetch_interval)
               | none => false) = true then
    ⟨st, st.working_proxies, false, 0⟩
  else if (fetch_proxies_from_sources rows).isEmpty then
    ⟨st, st.working_proxies, true, 0⟩
  else
    ⟨{ (validate_proxies st (fetch_proxies_from_sources rows) outs).1 with
        working_proxies := (sortWorking (removeDuplicates
          ((validate_proxies st (fetch_proxies_from_sources rows) outs).1.working_proxies ++
            (validate_proxies st (fetch_proxies_from_sources rows) outs).2.1))).take max_proxies,
        last_fetch := some now },
      (sortWorking (removeDuplicates
        ((validate_proxies st (fetch_proxies_from_sources rows) outs).1.working_proxies ++
          (validate_proxies st (fetch_proxies_from_sources rows) outs).2.1))).take max_proxies,
      true,
      (validate_proxies st (fetch_proxies_from_sources rows) outs).2.2⟩

/-- `get_random_proxy` (lines 316-323): `random.choices` over the working
set with weights `success_count + 1`; every weight is positive, so every
index is reachable — `choice` names the index the draw lands on. -/
def get_random_proxy (st : MgrState) (choice : Nat) : Option ProxyInfo :=
  if st.working_proxies.isEmpty then none
  else st.working_proxies.get? (choice % st.working_proxies.length)

/-- One observable operation on a `FreeProxyManager` for the process
lifetime: validating a caller-held record, validating a record aliased at
index `i` of the working list (Python mutates it in place there),
refreshing, or selecting. -/
inductive MgrOp where
  | validateExternal (p : ProxyInfo) (o : ValOutcome)
  | validateMember (i : Nat) (o : ValOutcome)
  | refresh (now : ℚ) (rows : List Candidate) (outs : List ValOutcome) (force : Bool)
  | select (choice : Nat)

/-- State transition of one operation. -/
def applyOp (st : MgrState) : MgrOp → MgrState
  | .validateExternal p o => (validate_proxy st p o).state
  | .validateMember i o =>
    match st.working_proxies.get? i with
    | some p =>
      let r := validate_proxy st p o
      { r.state with working_proxies := st.working_proxies.set i r.proxy }
    | none => st
  | .refresh now rows outs force => (refresh_proxies st now rows outs force).state
  | .select _ => st

/-- The state after a sequence of operations, starting from the freshly
constructed manager (`__init__`, lines 39-52). -/
def applyOps (ops : List MgrOp) : MgrState := ops.foldl applyOp {}

/-! ### Helper lemmas -/

/-- Lowercasing never moves a character in or out of the whitespace set. -/
lemma pyIsSpace_toLower (c : Char) : pyIsSpace c.toLower = pyIsSpace c := by
  have aux : ∀ n : Nat, 65 ≤ n → n ≤ 90 → pyIsSpace (Char.ofNat (n + 32)) = false := by
    intro n h1 h2
    interval_cases n <;> decide
  show pyIsSpace (if c.toNat ≥ 65 ∧ c.toNat ≤ 90 then Char.ofNat (c.toNat + 32) else c) =
    pyIsSpace c
  by_cases h : c.toNat ≥ 65 ∧ c.toNat ≤ 90
  · rw [if_pos h, aux c.toNat h.1 h.2]
    symm
    simp only [pyIsSpace, Bool.or_eq_false_iff, decide_eq_false_iff_not]
    omega
  · rw [if_neg h]

/-- Lowercasing a string does not change how many words `str.split()`
produces. -/
lemma pyWordsAux_lower_length (l acc : List Char) :
    (pyWordsAux (strLower l) (acc.map Char.toLower)).length =
      (pyWordsAux l acc).length := by
  induction l generalizing acc with
  | nil =>
    simp only [strLower, List.map_nil, pyWordsAux, List.isEmpty_eq_true, List.map_eq_nil_iff]
    split <;> rename_i h <;> simp [h]
  | cons c cs ih =>
    simp only [strLower, List.map_cons, pyWordsAux, pyIsSpace_toLower]
    by_cases hs : pyIsSpace c
    · simp only [hs, if_true]
      by_cases ha : acc = []
      · subst ha
        simpa [strLower] using ih []
      · have hm : ¬(acc.map Char.toLower).isEmpty := by simp [List.isEmpty_eq_true, ha]
        have hm2 : ¬acc.isEmpty := by simp [List.isEmpty_eq_true, ha]
        simp only [hm, hm2, if_false, List.length_cons]
        simpa [strLower] using ih []
    · simp only [hs, if_false]
      have := ih (c :: acc)
      simpa [strLower] using this

/-- Word count of the lowercased content equals word count of the
content. -/
lemma pyWords_lower_length (l : List Char) :
    (pyWords (strLower l)).length = (pyWords l).length := by
  simpa using pyWordsAux_lower_length l []

/-- Shape of a successful validation: the decoy guards passed and only the
word-count and reading-time fields changed. -/
lemma validateArticle_ok (a a' : Article) (h : validateArticle a = .ok a') :
    a' = { a with metadata :=
      { a.metadata with
        word_count := (pyWords (strLower a.content_markdown.data)).length,
        reading_time_minutes :=
          max 1 (((pyWords (strLower a.content_markdown.data)).length : ℚ) / 200) } } := by
  unfold validateArticle at h
  split at h
  · cases h
  · split at h
    · cases h
    · exact (Except.ok.inj h).symm

/-! ### Claim theorems -/

/-- C4: validation raises `DecoyPageError` — a specialization of
`ContentExtractionError` — exactly when the (lowercased) markdown is
shorter than `MINIMUM_CONTENT_LENGTH` or contains a configured decoy
keyword; any validation error is such a `DecoyPageError`, so the article
is rejected. -/
theorem c4_decoy_page_error (a : Article) :
    ((∃ msg, validateArticle a = .error (.decoyPageError msg)) ↔
      ((strLower a.content_markdown.data).length < MINIMUM_CONTENT_LENGTH ∨
        ∃ k ∈ DECOY_PAGE_KEYWORDS,
          containsChars (strLower a.content_markdown.data) k.data = true)) ∧
    (∀ e, validateArticle a = .error e →
      e.isContentExtraction = true ∧ ∃ msg, e = .decoyPageError msg) := by
  unfold validateArticle
  split
  · rename_i h1
    refine ⟨⟨fun _ => Or.inl h1, fun _ => ⟨_, rfl⟩⟩, ?_⟩
    intro e he
    cases he
    exact ⟨rfl, _, rfl⟩
  · rename_i h1
    split
    · rename_i h2
      refine ⟨⟨fun _ => Or.inr (List.any_eq_true.mp h2), fun _ => ⟨_, rfl⟩⟩, ?_⟩
      intro e he
      cases he
      exact ⟨rfl, _, rfl⟩
    · rename_i h2
      refine ⟨⟨?_, ?_⟩, ?_⟩
      · rintro ⟨msg, hmsg⟩
        cases hmsg
      · rintro (hlt | hkw)
        · exact absurd hlt h1
        · exact absurd (List.any_eq_true.mpr hkw) h2
      · intro e he
        cases he

/-- C4 witness: an article whose markdown is empty is rejected as a decoy
page (too short). -/
theorem c4_witness :
    ∃ msg,
      validateArticle
        { url := "u", domain := "d", title := "t", metadata := {},
          content_markdown := "", content_clean_html := "" } = .error (.decoyPageError msg) :=
  (c4_decoy_page_error _).1.mpr (Or.inl (by decide))

/-- C9: a validated article's `word_count` is the number of
whitespace-separated words of the markdown content and its
`reading_time_minutes` is `max 1 (word_count / 200)`. -/
theorem c9_word_count_reading_time (a a' : Article)
    (h : validateArticle a = .ok a') :
    a'.metadata.word_count = (pyWords a.content_markdown.data).length ∧
    a'.metadata.reading_time_minutes =
      max 1 ((a'.metadata.word_count : ℚ) / 200) := by
  have hshape := validateArticle_ok a a' h
  subst hshape
  refine ⟨?_, rfl⟩
  exact pyWords_lower_length a.content_markdown.data

/-- A 400-word markdown body (one-letter words). -/
def art400 : Article :=
  { url := "u", domain := "d", title := "t", metadata := {},
    content_markdown := String.intercalate " " (List.replicate 400 "w"),
    content_clean_html := "" }

/-- A 50-word markdown body long enough to pass the length guard. -/
def art50 : Article :=
  { url := "u", domain := "d", title := "t", metadata := {},
    content_markdown := String.intercalate " " (List.replicate 50 "abcdefg"),
    content_clean_html := "" }

set_option maxRecDepth 100000 in
/-- C9 witness: 400 words give a reading time of 2.0 minutes, 50 words
give the 1.0-minute floor. -/
theorem c9_witness :
    (validateArticle art400).map
      (fun r => (r.metadata.word_count, r.metadata.reading_time_minutes)) = .ok (400, 2) ∧
    (validateArticle art50).map
      (fun r => (r.metadata.word_count, r.metadata.reading_time_minutes)) = .ok (50, 1) := by
  constructor
  · cases h : validateArticle art400 with
    | error e =>
      have hok : (validateArticle art400).isOk = true := by decide
      rw [h] at hok
      exact absurd hok (by simp [Except.isOk, Except.toBool])
    | ok r =>
      have hc := c9_word_count_reading_time art400 r h
      have hwc : r.metadata.word_count = 400 := by
        rw [hc.1]
        decide
      have hrt : r.metadata.reading_time_minutes = 2 := by
        rw [hc.2, hwc]
        norm_num
      simp [Except.map, hwc, hrt]
  · cases h : validateArticle art50 with
    | error e =>
      have hok : (validateArticle art50).isOk = true := by decide
      rw [h] at hok
      exact absurd hok (by simp [Except.isOk, Except.toBool])
    | ok r =>
      have hc := c9_word_count_reading_time art50 r h
      have hwc : r.metadata.word_count = 50 := by
        rw [hc.1]
        decide
      have hrt : r.metadata.reading_time_minutes = 1 := by
        rw [hc.2, hwc]
        norm_num
      simp [Except.map, hwc, hrt]

/-- The meta-tag strategy never touches an author that is already
resolved (guard on line 707). -/
lemma strategyFromTags_author_of_ne (soup : SoupModel) (pd : String → Option String)
    (m : Metadata) (h : m.author ≠ UNKNOWN_AUTHOR) :
    (strategyFromTags soup pd m).author = m.author ∧
    (strategyFromTags soup pd m).author_found_by = m.author_found_by := by
  unfold strategyFromTags strategyTagsAuthor strategyTagsDate
  rw [if_neg h]
  split
  · split <;> simp
  · exact ⟨rfl, rfl⟩

/-- The attribute strategy never touches the author fields. -/
lemma strategyFromAttributes_author (soup : SoupModel) (pd : String → Option String)
    (m : Metadata) :
    (strategyFromAttributes soup pd m).author = m.author ∧
    (strategyFromAttributes soup pd m).author_found_by = m.author_found_by := by
  unfold strategyFromAttributes
  split
  · split <;> simp
  · simp

/-- A soup providing an author both in a JSON-LD block and in a
`meta[name='author']` tag. -/
def c5Soup : SoupModel :=
  { jsonLd := [some { author := some (.adict [("name", "Alice")]) }],
    selectMeta := fun sel => if sel = "meta[name='author']" then some "Bob" else none,
    timeDatetimes := [] }

/-- A date parser that always raises (no date is involved in C5). -/
def c5NoDate : String → Option String := fun _ => none

/-- C5 counterexample: with both a JSON-LD author and a meta-tag author
present, the chain resolves the author to the JSON-LD value but tags it
`"json-ld"`, not `"structured-data"` as the claim states. -/
theorem c5_counterexample :
    (extractUniversalMetadata c5Soup c5NoDate).author = "Alice" ∧
    (extractUniversalMetadata c5Soup c5NoDate).author_found_by = some "json-ld" ∧
    (extractUniversalMetadata c5Soup c5NoDate).author_found_by ≠ some "structured-data" ∧
    firstMetaContent c5Soup authorMetaSelectors = some "Bob" := by
  exact ⟨rfl, rfl, by decide, rfl⟩

/-- C5 (amended): when the JSON-LD strategy resolves the author (to a
value other than the `"Unknown"` sentinel), the later strategies do not
overwrite it and the chain reports `author_found_by = "json-ld"`. -/
theorem c5_json_ld_precedence (soup : SoupModel) (pd : String → Option String)
    (hfb : (strategyFromJsonLd pd soup.jsonLd {}).author_found_by = some "json-ld")
    (hne : (strategyFromJsonLd pd soup.jsonLd {}).author ≠ UNKNOWN_AUTHOR) :
    (extractUniversalMetadata soup pd).author = (strategyFromJsonLd pd soup.jsonLd {}).author ∧
    (extractUniversalMetadata soup pd).author_found_by = some "json-ld" := by
  unfold extractUniversalMetadata
  set m1 := strategyFromJsonLd pd soup.jsonLd {} with hm1
  have step2 :
      (if m1.author = UNKNOWN_AUTHOR ∨ m1.publication_date_utc = DATE_NOT_APPLICABLE then
        strategyFromTags soup pd m1
      else m1).author = m1.author ∧
      (if m1.author = UNKNOWN_AUTHOR ∨ m1.publication_date_utc = DATE_NOT_APPLICABLE then
        strategyFromTags soup pd m1
      else m1).author_found_by = m1.author_found_by := by
    split
    · exact strategyFromTags_author_of_ne soup pd m1 hne
    · exact ⟨rfl, rfl⟩
  set m2 := (if m1.author = UNKNOWN_AUTHOR ∨ m1.publication_date_utc = DATE_NOT_APPLICABLE then
    strategyFromTags soup pd m1 else m1) with hm2
  have step3 :
      (if m2.publication_date_utc = DATE_NOT_APPLICABLE then
        strategyFromAttributes soup pd m2
      else m2).author = m2.author ∧
      (if m2.publication_date_utc = DATE_NOT_APPLICABLE then
        strategyFromAttributes soup pd m2
      else m2).author_found_by = m2.author_found_by := by
    split
    · exact strategyFromAttributes_author soup pd m2
    · exact ⟨rfl, rfl⟩
  exact ⟨step3.1.trans step2.1, (step3.2.trans step2.2).trans hfb⟩

/-- C5 witness: the amended precedence theorem at the concrete two-source
soup. -/
theorem c5_witness :
    (extractUniversalMetadata c5Soup c5NoDate).author =
      (strategyFromJsonLd c5NoDate c5Soup.jsonLd {}).author ∧
    (extractUniversalMetadata c5Soup c5NoDate).author_found_by = some "json-ld" :=
  c5_json_ld_precedence c5Soup c5NoDate rfl (by decide)

/-! ### Proxy-pool lemmas and claims -/

/-- Every branch of `refresh_proxies` returns the working list it leaves
in the state. -/
lemma refresh_result_eq (st : MgrState) (now : ℚ) (rows : List Candidate)
    (outs : List ValOutcome) (force : Bool) :
    (refresh_proxies st now rows outs force).result =
      (refresh_proxies st now rows outs force).state.working_proxies := by
  unfold refresh_proxies
  split
  · rfl
  · split
    · rfl
    · rfl

/-- A demonstration candidate row. -/
def cDemo : Candidate := { ip := "1.2.3.4", port := 80, protocol := "http" }

/-- C7: a `refresh(force=False)` issued within the cooldown window of the
last completed refresh fetches nothing, validates nothing, and returns the
same working set (and state) as that refresh; `refresh(force=True)` always
fetches. -/
theorem c7_refresh_cooldown :
    (∀ (st0 : MgrState) (t1 : ℚ) rows1 outs1 force1 (t2 : ℚ) rows2 outs2,
      (refresh_proxies st0 t1 rows1 outs1 force1).state.last_fetch = some t1 →
      t2 - t1 < fetch_interval →
      refresh_proxies (refresh_proxies st0 t1 rows1 outs1 force1).state t2 rows2 outs2 false =
        ⟨(refresh_proxies st0 t1 rows1 outs1 force1).state,
         (refresh_proxies st0 t1 rows1 outs1 force1).result, false, 0⟩) ∧
    (∀ (st : MgrState) (now : ℚ) rows outs,
      (refresh_proxies st now rows outs true).fetchedSources = true) := by
  constructor
  · intro st0 t1 rows1 outs1 force1 t2 rows2 outs2 hlf hlt
    have hres := refresh_result_eq st0 t1 rows1 outs1 force1
    rw [hres]
    set st1 := (refresh_proxies st0 t1 rows1 outs1 force1).state with hst1
    have hcond : (¬false = true ∧ (match st1.last_fetch with
        | some t => decide (t2 - t < fetch_interval)
        | none => false) = true) := by
      refine ⟨by simp, ?_⟩
      rw [hlf]
      simpa using hlt
    unfold refresh_proxies
    rw [if_pos hcond]
  · intro st now rows outs
    unfold refresh_proxies
    rw [if_neg (by simp)]
    split
    · rfl
    · rfl

/-- C7 witness: a forced refresh at time 0 admits one proxy; an unforced
refresh at time 10 (inside the 30-minute window) is the identity. -/
theorem c7_witness :
    refresh_proxies (refresh_proxies {} 0 [cDemo] [.ok 1] true).state 10 [] [] false =
      ⟨(refresh_proxies {} 0 [cDemo] [.ok 1] true).state,
       (refresh_proxies {} 0 [cDemo] [.ok 1] true).result, false, 0⟩ ∧
    (refresh_proxies {} 0 [] [] true).fetchedSources = true :=
  ⟨c7_refresh_cooldown.1 {} 0 [cDemo] [.ok 1] true 10 [] [] (by decide)
    (by norm_num [fetch_interval]),
   c7_refresh_cooldown.2 {} 0 [] []⟩

/-- `validate_proxy` never touches the working list. -/
lemma validate_proxy_state_working (st : MgrState) (p : ProxyInfo) (o : ValOutcome) :
    (validate_proxy st p o).state.working_proxies = st.working_proxies := by
  unfold validate_proxy
  split
  · rfl
  · split
    · rfl
    · simp only []
      split
      · rfl
      · rfl

/-- `validate_proxies` never touches the working list. -/
lemma validate_proxies_state_working (st : MgrState) (ps : List ProxyInfo)
    (outs : List ValOutcome) :
    (validate_proxies st ps outs).1.working_proxies = st.working_proxies := by
  induction ps generalizing st outs with
  | nil => rfl
  | cons p ps ih =>
    unfold validate_proxies
    rw [ih]
    exact validate_proxy_state_working st p (outs.headD .err)

/-- `applyOp` on an external validation, by iota reduction. -/
lemma applyOp_validateExternal (st : MgrState) (p : ProxyInfo) (o : ValOutcome) :
    applyOp st (.validateExternal p o) = (validate_proxy st p o).state := rfl

/-- `applyOp` on an aliased member validation when the index is in range. -/
lemma applyOp_validateMember_some (st : MgrState) (i : Nat) (o : ValOutcome)
    (p : ProxyInfo) (h : st.working_proxies.get? i = some p) :
    applyOp st (.validateMember i o) =
      { (validate_proxy st p o).state with
        working_proxies := st.working_proxies.set i (validate_proxy st p o).proxy } := by
  show (match st.working_proxies.get? i with
    | some p =>
      let r := validate_proxy st p o
      { r.state with working_proxies := st.working_proxies.set i r.proxy }
    | none => st) = _
  rw [h]

/-- `applyOp` on an aliased member validation when the index is out of
range. -/
lemma applyOp_validateMember_none (st : MgrState) (i : Nat) (o : ValOutcome)
    (h : st.working_proxies.get? i = none) :
    applyOp st (.validateMember i o) = st := by
  show (match st.working_proxies.get? i with
    | some p =>
      let r := validate_proxy st p o
      { r.state with working_proxies := st.working_proxies.set i r.proxy }
    | none => st) = _
  rw [h]

/-- `applyOp` on a refresh, by iota reduction. -/
lemma applyOp_refresh (st : MgrState) (now : ℚ) (rows : List Candidate)
    (outs : List ValOutcome) (force : Bool) :
    applyOp st (.refresh now rows outs force) =
      (refresh_proxies st now rows outs force).state := rfl

/-- `applyOp` on a selection, by iota reduction. -/
lemma applyOp_select (st : MgrState) (c : Nat) : applyOp st (.select c) = st := rfl

/-- One operation keeps the working list within the cap. -/
lemma applyOp_length_le (st : MgrState) (op : MgrOp)
    (h : st.working_proxies.length ≤ max_proxies) :
    (applyOp st op).working_proxies.length ≤ max_proxies := by
  cases op with
  | validateExternal p o =>
    rw [applyOp_validateExternal, validate_proxy_state_working]
    exact h
  | validateMember i o =>
    cases hg : st.working_proxies.get? i with
    | some p =>
      rw [applyOp_validateMember_some st i o p hg]
      simpa [List.length_set] using h
    | none =>
      rw [applyOp_validateMember_none st i o hg]
      exact h
  | refresh now rows outs force =>
    rw [applyOp_refresh]
    unfold refresh_proxies
    split
    · exact h
    · split
      · exact h
      · simp only [List.length_take]
        exact min_le_left _ _
  | select c =>
    rw [applyOp_select]
    exact h

/-- C8: the working set stays within `max_proxies` after every operation
for the process lifetime, and a refresh either keeps the working set or
replaces it with the `max_proxies` highest-ranked records of the merged,
deduplicated pool: the retained prefix is sorted by the ranking and each
retained record ranks at least as high as every dropped one. -/
theorem c8_capped_ranked_working_set :
    (∀ ops : List MgrOp, (applyOps ops).working_proxies.length ≤ max_proxies) ∧
    (∀ (st : MgrState) (now : ℚ) (rows : List Candidate) (outs : List ValOutcome)
        (force : Bool),
      (refresh_proxies st now rows outs force).state.working_proxies = st.working_proxies ∨
      ((refresh_proxies st now rows outs force).state.working_proxies =
          (sortWorking (removeDuplicates (st.working_proxies ++
            (validate_proxies st (fetch_proxies_from_sources rows) outs).2.1))).take
            max_proxies ∧
        (refresh_proxies st now rows outs force).state.working_proxies.length ≤ max_proxies ∧
        List.Sorted proxyRank
          ((refresh_proxies st now rows outs force).state.working_proxies) ∧
        ∀ x ∈ (refresh_proxies st now rows outs force).state.working_proxies,
          ∀ y ∈ (sortWorking (removeDuplicates (st.working_proxies ++
            (validate_proxies st (fetch_proxies_from_sources rows) outs).2.1))).drop
            max_proxies,
          proxyRank x y)) := by
  constructor
  · intro ops
    have hgen : ∀ (l : List MgrOp) (st : MgrState),
        st.working_proxies.length ≤ max_proxies →
        (l.foldl applyOp st).working_proxies.length ≤ max_proxies := by
      intro l
      induction l with
      | nil => intro st h; exact h
      | cons op rest ih =>
        intro st h
        exact ih (applyOp st op) (applyOp_length_le st op h)
    exact hgen ops {} (by decide)
  · intro st now rows outs force
    unfold refresh_proxies
    split
    · exact Or.inl rfl
    · split
      · exact Or.inl rfl
      · refine Or.inr ⟨?_, ?_, ?_, ?_⟩
        · rw [validate_proxies_state_working]
        · simp only [List.length_take]
          exact min_le_left _ _
        · refine List.Pairwise.sublist (List.take_sublist _ _) ?_
          exact List.sorted_insertionSort proxyRank _
        · intro x hx y hy
          rw [validate_proxies_state_working] at hx
          have hs : List.Pairwise proxyRank
              (sortWorking (removeDuplicates (st.working_proxies ++
                (validate_proxies st (fetch_proxies_from_sources rows) outs).2.1))) :=
            List.sorted_insertionSort proxyRank _
          rw [← List.take_append_drop max_proxies
            (sortWorking (removeDuplicates (st.working_proxies ++
              (validate_proxies st (fetch_proxies_from_sources rows) outs).2.1)))] at hs
          exact (List.pairwise_append.mp hs).2.2 x hx y hy

/-- C8 witness: the cap invariant after a concrete forced refresh. -/
theorem c8_witness :
    (applyOps [.refresh 0 [cDemo] [.ok 1] true]).working_proxies.length ≤ max_proxies :=
  c8_capped_ranked_working_set.1 [.refresh 0 [cDemo] [.ok 1] true]

/-- Validation mutations never change a record's `ip:port` key. -/
lemma validate_proxy_key (st : MgrState) (p : ProxyInfo) (o : ValOutcome) :
    proxyKey (validate_proxy st p o).proxy = proxyKey p := by
  unfold validate_proxy
  split
  · rfl
  · split
    · rfl
    · rfl

/-- `set.add` keeps existing members. -/
lemma contains_insertKey_of_contains (k k' : String) (l : List String)
    (h : l.contains k = true) : (insertKey k' l).contains k = true := by
  unfold insertKey
  split
  · exact h
  · rw [List.elem_iff] at h ⊢
    exact List.mem_append_left _ h

/-- `set.add` contains the added key. -/
lemma contains_insertKey_self (k : String) (l : List String) :
    (insertKey k l).contains k = true := by
  unfold insertKey
  split
  · assumption
  · rw [List.elem_iff]
    exact List.mem_append_right _ (List.mem_singleton_self k)

/-- `validate_proxy` only ever grows the failed set. -/
lemma validate_proxy_failed_mono (st : MgrState) (p : ProxyInfo) (o : ValOutcome)
    (k : String) (h : st.failed_proxies.contains k = true) :
    (validate_proxy st p o).state.failed_proxies.contains k = true := by
  unfold validate_proxy
  split
  · exact h
  · split
    · exact h
    · simp only []
      split
      · exact contains_insertKey_of_contains k _ _ h
      · exact h

/-- A record can only pass validation when its key is not yet known
bad. -/
lemma validate_proxy_result_not_failed (st : MgrState) (p : ProxyInfo) (o : ValOutcome)
    (h : (validate_proxy st p o).result = true) :
    ¬st.failed_proxies.contains (proxyKey p) = true := by
  intro hc
  unfold validate_proxy at h
  rw [if_pos hc] at h
  cases h

/-- `validate_proxies` only ever grows the failed set. -/
lemma validate_proxies_failed_mono (ps : List ProxyInfo) (st : MgrState)
    (outs : List ValOutcome) (k : String) (h : st.failed_proxies.contains k = true) :
    (validate_proxies st ps outs).1.failed_proxies.contains k = true := by
  induction ps generalizing st outs with
  | nil => exact h
  | cons p ps ih =>
    exact ih _ outs.tail (validate_proxy_failed_mono st p (outs.headD .err) k h)

/-- No freshly validated working record carries a key that was already
known bad when the batch started. -/
lemma validate_proxies_new_not_failed (ps : List ProxyInfo) (st : MgrState)
    (outs : List ValOutcome) (k : String) (h : st.failed_proxies.contains k = true) :
    ∀ q ∈ (validate_proxies st ps outs).2.1, proxyKey q ≠ k := by
  induction ps generalizing st outs with
  | nil => intro q hq; cases hq
  | cons p ps ih =>
    intro q hq
    unfold validate_proxies at hq
    rcases List.mem_append.mp hq with hq1 | hq2
    · rcases hr : (validate_proxy st p (outs.headD .err)).result with _ | _
      · rw [hr] at hq1
        cases hq1
      · rw [hr] at hq1
        rcases List.mem_singleton.mp hq1 with rfl
        rw [validate_proxy_key]
        intro hkey
        exact validate_proxy_result_not_failed st p (outs.headD .err) hr (hkey ▸ h)
    · exact ih _ outs.tail (validate_proxy_failed_mono st p (outs.headD .err) k h) q hq2

/-- The deduplicator only keeps records of its input. -/
lemma mem_removeDuplicatesAux (seen : List String) (l : List ProxyInfo) (q : ProxyInfo)
    (h : q ∈ removeDuplicatesAux seen l) : q ∈ l := by
  induction l generalizing seen with
  | nil => cases h
  | cons p ps ih =>
    unfold removeDuplicatesAux at h
    split at h
    · exact List.mem_cons_of_mem p (ih _ h)
    · rcases List.mem_cons.mp h with rfl | h2
      · exact List.mem_cons_self _ _
      · exact List.mem_cons_of_mem p (ih _ h2)

/-- A retained record of a refresh merge comes from the merged pool. -/
lemma mem_take_sortWorking (n : Nat) (l : List ProxyInfo) (q : ProxyInfo)
    (h : q ∈ (sortWorking l).take n) : q ∈ l :=
  (List.perm_insertionSort proxyRank l).mem_iff.mp
    ((List.take_sublist n (sortWorking l)).mem h)

/-- One operation only ever grows the failed set. -/
lemma applyOp_failed_mono (st : MgrState) (op : MgrOp) (k : String)
    (h : st.failed_proxies.contains k = true) :
    (applyOp st op).failed_proxies.contains k = true := by
  cases op with
  | validateExternal p o =>
    rw [applyOp_validateExternal]
    exact validate_proxy_failed_mono st p o k h
  | validateMember i o =>
    cases hg : st.working_proxies.get? i with
    | some p =>
      rw [applyOp_validateMember_some st i o p hg]
      exact validate_proxy_failed_mono st p o k h
    | none =>
      rw [applyOp_validateMember_none st i o hg]
      exact h
  | refresh now rows outs force =>
    rw [applyOp_refresh]
    unfold refresh_proxies
    split
    · exact h
    · split
      · exact h
      · exact validate_proxies_failed_mono _ st outs k h
  | select c =>
    rw [applyOp_select]
    exact h

/-- Once a key is known bad, no operation can introduce that key into the
working list: if it is among the working keys afterwards, it already was
before. -/
lemma applyOp_no_new_bad_key (st : MgrState) (op : MgrOp) (k : String)
    (hf : st.failed_proxies.contains k = true)
    (h : k ∈ (applyOp st op).working_proxies.map proxyKey) :
    k ∈ st.working_proxies.map proxyKey := by
  cases op with
  | validateExternal p o =>
    rw [applyOp_validateExternal, validate_proxy_state_working] at h
    exact h
  | validateMember i o =>
    cases hg : st.working_proxies.get? i with
    | some p =>
      rw [applyOp_validateMember_some st i o p hg] at h
      simp only [List.map_set] at h
      rcases List.mem_or_eq_of_mem_set h with h2 | rfl
      · exact h2
      · rw [validate_proxy_key]
        exact List.mem_map_of_mem proxyKey (List.get?_mem hg)
    | none =>
      rw [applyOp_validateMember_none st i o hg] at h
      exact h
  | refresh now rows outs force =>
    rw [applyOp_refresh] at h
    unfold refresh_proxies at h
    split at h
    · exact h
    · split at h
      · exact h
      · rcases List.mem_map.mp h with ⟨q, hq, rfl⟩
        have hq2 := mem_take_sortWorking _ _ _ hq
        have hq3 := mem_removeDuplicatesAux _ _ _ hq2
        rw [validate_proxies_state_working] at hq3
        rcases List.mem_append.mp hq3 with hq4 | hq4
        · exact List.mem_map_of_mem proxyKey hq4
        · exact absurd rfl
            (validate_proxies_new_not_failed _ st outs (proxyKey q) hf q hq4)
  | select c =>
    rw [applyOp_select] at h
    exact h

/-- The concrete C6 history: one forced refresh admits the proxy, then
three consecutive validation failures of the admitted record (via its
alias inside the working list) evict its key into the known-bad set. -/
def c6Ops : List MgrOp :=
  [.refresh 0 [cDemo] [.ok 1] true,
   .validateMember 0 .err, .validateMember 0 .err, .validateMember 0 .err]

/-- C6 counterexample: after its third consecutive validation failure, the
record's key `1.2.3.4:80` sits in the permanent known-bad set, yet
`get_random_proxy` still returns that very record — the claim's "never
returned by proxy selection" fails. -/
theorem c6_counterexample :
    (get_random_proxy (applyOps c6Ops) 0).map proxyKey = some "1.2.3.4:80" ∧
    (applyOps c6Ops).failed_proxies.contains "1.2.3.4:80" = true ∧
    (get_random_proxy (applyOps c6Ops) 0).map ProxyInfo.fail_count = some 3 := by
  refine ⟨?_, ?_, ?_⟩ <;> decide

/-- C6 (amended): from the 3rd failure on, the record's key enters the
known-bad set; a known-bad key stays known bad for the process lifetime,
any later `validate_proxy` call on a record with that key returns `False`
with no probe and no state change, and no later operation introduces that
key into the working set anew — but a record already admitted is not
evicted from the working list. -/
theorem c6_known_bad_permanent :
    (∀ (st : MgrState) (p : ProxyInfo),
      2 ≤ p.fail_count →
      (validate_proxy st p .err).state.failed_proxies.contains (proxyKey p) = true) ∧
    (∀ (st : MgrState) (k : String) (ops : List MgrOp),
      st.failed_proxies.contains k = true →
      (ops.foldl applyOp st).failed_proxies.contains k = true ∧
      (∀ (p : ProxyInfo) (o : ValOutcome), proxyKey p = k →
        validate_proxy (ops.foldl applyOp st) p o = ⟨p, ops.foldl applyOp st, false, false⟩) ∧
      (k ∈ (ops.foldl applyOp st).working_proxies.map proxyKey →
        k ∈ st.working_proxies.map proxyKey)) := by
  constructor
  · intro st p hfail
    unfold validate_proxy
    split
    · assumption
    · simp only []
      rw [if_pos (by omega : 3 ≤ p.fail_count + 1)]
      exact contains_insertKey_self _ _
  · intro st k ops
    induction ops generalizing st with
    | nil =>
      intro hf
      refine ⟨hf, ?_, fun h => h⟩
      intro p o hkey
      unfold validate_proxy
      rw [if_pos (hkey ▸ hf)]
    | cons op rest ih =>
      intro hf
      have hf2 := applyOp_failed_mono st op k hf
      rcases ih (applyOp st op) hf2 with ⟨ha, hb, hc⟩
      exact ⟨ha, hb, fun h => applyOp_no_new_bad_key st op k hf (hc h)⟩

/-- C6 witness: the eviction and permanence facts at concrete inputs: a
record with two prior failures is evicted on the next failure, and a
key already known bad is still known bad after an empty op sequence. -/
theorem c6_witness :
    (validate_proxy {}
      { ip := "1.2.3.4", port := 80, protocol := "http", fail_count := 2 } .err
      ).state.failed_proxies.contains
        (proxyKey { ip := "1.2.3.4", port := 80, protocol := "http", fail_count := 2 }) =
      true ∧
    (([] : List MgrOp).foldl applyOp
      { failed_proxies := ["9.9.9.9:3128"] }).failed_proxies.contains "9.9.9.9:3128" = true :=
  ⟨c6_known_bad_permanent.1 {} _ (by decide),
   (c6_known_bad_permanent.2 { failed_proxies := ["9.9.9.9:3128"] } "9.9.9.9:3128" []
     (by decide)).1⟩

/-! ### Workflow event-sequence lemmas and claims -/

/-- Both catch clauses produce an `error` event. -/
lemma robustCatch_status (e : PyExc) (c t : Nat) : (robustCatch e c t).status = "error" := by
  cases e <;> rfl

/-- Both catch clauses report the stage counter they were given. -/
lemma robustCatch_stage (e : PyExc) (c t : Nat) : (robustCatch e c t).current_stage = c := by
  cases e <;> rfl

/-- A catch event is terminal. -/
lemma isTerminal_robustCatch (e : PyExc) (c t : Nat) :
    isTerminal (robustCatch e c t) = true := by
  cases e <;> rfl

/-- A progress event is not terminal. -/
lemma not_terminal_of_progress (e : WorkflowOutput) (h : e.status = "progress") :
    isTerminal e = false := by
  simp [isTerminal, h]

/-- A non-empty event list whose front is all progress and whose last
event is terminal has exactly one terminal event. -/
lemma countP_terminal_eq_one (l : List WorkflowOutput) (hne : l ≠ [])
    (hdl : ∀ e ∈ l.dropLast, e.status = "progress")
    (hlast : ∀ e, l.getLast? = some e → isTerminal e = true) :
    l.countP (fun e => isTerminal e) = 1 := by
  conv_lhs => rw [← List.dropLast_append_getLast hne]
  rw [List.countP_append]
  have h1 : l.dropLast.countP (fun e => isTerminal e) = 0 := by
    rw [List.countP_eq_zero]
    intro e he
    simp [not_terminal_of_progress e (hdl e he)]
  have h2 : [l.getLast hne].countP (fun e => isTerminal e) = 1 := by
    have := hlast (l.getLast hne) (List.getLast?_eq_getLast l hne)
    simp [List.countP_cons, this]
  rw [h1, h2]

/-- Shape of the robust-path event list (at the workflow's actual call
site, `start_stage = 2`, `total_stages = 6`): non-empty, all progress
before a single terminal last event, stage counters non-decreasing and
at least 2. -/
lemma robust_shape (renv : RobustEnv) :
    runRobustPath renv 2 6 ≠ [] ∧
    (∀ e ∈ (runRobustPath renv 2 6).dropLast, e.status = "progress") ∧
    (∀ e, (runRobustPath renv 2 6).getLast? = some e → isTerminal e = true) ∧
    List.Chain' (· ≤ ·) ((runRobustPath renv 2 6).map fun e => e.current_stage) ∧
    (∀ n ∈ ((runRobustPath renv 2 6).map fun e => e.current_stage).head?, 2 ≤ n) := by
  unfold runRobustPath
  split
  · refine ⟨by simp, by simp, ?_, by simp [mkOutput], by simp [mkOutput]⟩
    intro e he
    simp only [List.getLast?_singleton, Option.some.injEq] at he
    subst he
    rfl
  · split
    · refine ⟨by simp, by simp [mkOutput], ?_, ?_, by simp [mkOutput]⟩
      · intro e he
        simp only [List.getLast?_cons_cons, List.getLast?_singleton, Option.some.injEq] at he
        subst he
        exact isTerminal_robustCatch _ _ _
      · simp [mkOutput, robustCatch_stage, List.chain'_cons]
    · split
      · refine ⟨by simp, by simp [mkOutput], ?_, ?_, by simp [mkOutput]⟩
        · intro e he
          simp only [List.getLast?_cons_cons, List.getLast?_singleton,
            Option.some.injEq] at he
          subst he
          exact isTerminal_robustCatch _ _ _
        · simp [mkOutput, robustCatch_stage, List.chain'_cons]
      · split
        · refine ⟨by simp, by simp [mkOutput], ?_, ?_, by simp [mkOutput]⟩
          · intro e he
            simp only [List.getLast?_cons_cons, List.getLast?_singleton,
              Option.some.injEq] at he
            subst he
            exact isTerminal_robustCatch _ _ _
          · simp [mkOutput, robustCatch_stage, List.chain'_cons]
        · split
          · refine ⟨by simp, by simp [mkOutput], ?_, ?_, by simp [mkOutput]⟩
            · intro e he
              simp only [List.getLast?_cons_cons, List.getLast?_singleton,
                Option.some.injEq] at he
              subst he
              exact isTerminal_robustCatch _ _ _
            · simp [mkOutput, robustCatch_stage, List.chain'_cons]
          · split
            · refine ⟨by simp, by simp [mkOutput], ?_, ?_, by simp [mkOutput]⟩
              · intro e he
                simp only [List.getLast?_cons_cons, List.getLast?_singleton,
                  Option.some.injEq] at he
                subst he
                exact isTerminal_robustCatch _ _ _
              · simp [mkOutput, robustCatch_stage, List.chain'_cons]
            · refine ⟨by simp, by simp [mkOutput], ?_, ?_, by simp [mkOutput]⟩
              · intro e he
                simp only [List.getLast?_cons_cons, List.getLast?_singleton,
                  Option.some.injEq] at he
                subst he
                rfl
              · simp [mkOutput, List.chain'_cons]

/-- C1: every run yields a non-empty event sequence with exactly one
terminal event, that terminal event last, only progress events before it,
and a monotonically non-decreasing `current_stage`. -/
theorem c1_single_terminal_monotone (env : Env) :
    (run env).events ≠ [] ∧
    (run env).events.countP (fun e => isTerminal e) = 1 ∧
    (∀ e ∈ (run env).events.dropLast, e.status = "progress") ∧
    (∀ e, (run env).events.getLast? = some e → isTerminal e = true) ∧
    List.Chain' (· ≤ ·) ((run env).events.map fun e => e.current_stage) := by
  suffices h : (run env).events ≠ [] ∧
      (∀ e ∈ (run env).events.dropLast, e.status = "progress") ∧
      (∀ e, (run env).events.getLast? = some e → isTerminal e = true) ∧
      List.Chain' (· ≤ ·) ((run env).events.map fun e => e.current_stage) by
    exact ⟨h.1, countP_terminal_eq_one _ h.1 h.2.1 h.2.2.1, h.2.1, h.2.2.1, h.2.2.2⟩
  unfold run
  split
  · refine ⟨by simp, by simp [initEvent, mkOutput], ?_,
      by simp [initEvent, validationFailedEvent, mkOutput, List.chain'_cons]⟩
    intro e he
    simp only [List.getLast?_cons_cons, List.getLast?_singleton, Option.some.injEq] at he
    subst he
    rfl
  · split
    · refine ⟨by simp, by simp [initEvent, mkOutput], ?_,
        by simp [initEvent, validationFailedEvent, mkOutput, List.chain'_cons]⟩
      intro e he
      simp only [List.getLast?_cons_cons, List.getLast?_singleton, Option.some.injEq] at he
      subst he
      rfl
    · split
      · refine ⟨by simp, by simp [initEvent, fastPathEvent, mkOutput], ?_,
          by simp [initEvent, fastPathEvent, mkOutput, List.chain'_cons]⟩
        intro e he
        simp only [List.getLast?_cons_cons, List.getLast?_singleton, Option.some.injEq] at he
        subst he
        rfl
      · obtain ⟨hne, hdl, hlast, hchain, hhead⟩ := robust_shape env.robust
        refine ⟨by simp, ?_, ?_, ?_⟩
        · rw [List.dropLast_append_of_ne_nil _ hne]
          intro e he
          rcases List.mem_append.mp he with h1 | h2
          · simp only [List.mem_cons, List.mem_singleton, List.not_mem_nil,
              or_false] at h1
            rcases h1 with rfl | rfl | rfl <;> rfl
          · exact hdl e h2
        · intro e he
          rw [List.getLast?_append] at he
          obtain ⟨x, hx⟩ := Option.isSome_iff_exists.mp (List.getLast?_isSome.mpr hne)
          rw [hx] at he
          rw [show ∀ o : Option WorkflowOutput, (some x).or o = some x from fun _ => rfl,
            Option.some.injEq] at he
          subst he
          exact hlast x hx
        · rw [List.map_append, List.chain'_append]
          refine ⟨by simp [initEvent, fastPathEvent, escalationEvent, mkOutput,
            List.chain'_cons], hchain, ?_⟩
          intro x hx y hy
          have h2 := hhead y hy
          simp only [initEvent, fastPathEvent, escalationEvent, mkOutput, List.map_cons,
            List.map_nil, List.getLast?_cons_cons, List.getLast?_singleton,
            Option.mem_def, Option.some.injEq] at hx
          omega

/-- A fast-path success environment: a valid URL, a first attempt whose
fetch succeeds and whose parsed page passes validation. -/
def envDemoFast : Env :=
  { parse := .parsed "https" "e.com",
    attempt1 :=
      { fetch := .ok "<html>",
        parsed := .ok
          { url := "https://e.com/a", domain := "e.com", title := "T",
            markdown := String.intercalate " " (List.replicate 400 "w"),
            clean_html := "<article/>", metadata := {} } },
    attempt2 := { fetch := .error "unused", parsed := .error (.other "unused") },
    robust :=
      { browserUp := true, contextSetup := .ok (), navigation := .ok (),
        pageContent := .ok "<html>", parsed := .error (.other "unused") } }

set_option maxRecDepth 100000 in
/-- C1 witness: the single-terminal count and the stage chain at the
concrete fast-path success environment. -/
theorem c1_witness :
    (run envDemoFast).events.countP (fun e => isTerminal e) = 1 ∧
    List.Chain' (· ≤ ·) ((run envDemoFast).events.map fun e => e.current_stage) :=
  ⟨(c1_single_terminal_monotone envDemoFast).2.1,
   (c1_single_terminal_monotone envDemoFast).2.2.2.2⟩

/-- C2 (amended): on a malformed URL (empty scheme or empty host), the run
yields exactly two events — the initialization progress event, then a
terminal error at `current_stage` 1 — and neither network tier is ever
entered. -/
theorem c2_malformed_first_error (env : Env) (s n : String)
    (hp : env.parse = .parsed s n) (hm : s = "" ∨ n = "") :
    (run env).events = [initEvent, validationFailedEvent "Invalid URL format"] ∧
    initEvent.status = "progress" ∧
    (validationFailedEvent "Invalid URL format").status = "error" ∧
    (validationFailedEvent "Invalid URL format").current_stage = 1 ∧
    (run env).fastCalls = 0 ∧
    (run env).robustCalls = 0 := by
  have hrun : run env = ⟨[initEvent, validationFailedEvent "Invalid URL format"], 0, 0⟩ := by
    unfold run
    simp only [hp]
    rw [if_pos hm]
  rw [hrun]
  exact ⟨rfl, rfl, rfl, rfl, rfl, rfl⟩

/-- A malformed-URL environment: `urlparse` yields an empty scheme. -/
def envMalformed : Env :=
  { parse := .parsed "" "example.com",
    attempt1 := { fetch := .error "unused", parsed := .error (.other "unused") },
    attempt2 := { fetch := .error "unused", parsed := .error (.other "unused") },
    robust :=
      { browserUp := false, contextSetup := .ok (), navigation := .ok (),
        pageContent := .ok "", parsed := .error (.other "unused") } }

/-- C2 counterexample: for the malformed URL with no scheme, the FIRST
yielded event is the initialization progress event — not the terminal
error the claim describes (the error is the second event). -/
theorem c2_counterexample :
    envMalformed.parse = .parsed "" "example.com" ∧
    ((run envMalformed).events.head?).map (fun e => e.status) = some "progress" ∧
    ((run envMalformed).events.head?).map (fun e => isTerminal e) = some false := by
  refine ⟨rfl, ?_, ?_⟩ <;> decide

/-- C2 witness: the amended two-event shape at the concrete malformed
environment. -/
theorem c2_witness :
    (run envMalformed).events = [initEvent, validationFailedEvent "Invalid URL format"] ∧
    (run envMalformed).fastCalls = 0 ∧
    (run envMalformed).robustCalls = 0 :=
  ⟨(c2_malformed_first_error envMalformed "" "example.com" rfl (Or.inl rfl)).1,
   (c2_malformed_first_error envMalformed "" "example.com" rfl (Or.inl rfl)).2.2.2.2.1,
   (c2_malformed_first_error envMalformed "" "example.com" rfl (Or.inl rfl)).2.2.2.2.2⟩

/-- C3: any fast-path failure is reported as a progress event (never as a
terminal error), the robust tier is entered exactly once, and every error
event of the run comes from the robust tier. -/
theorem c3_escalation_once (env : Env) (s n : String) (e : PyExc)
    (hp : env.parse = .parsed s n) (hs : ¬s = "") (hn : ¬n = "")
    (hf : runFastPath env.attempt1 env.attempt2 = .error e) :
    (run env).events =
      [initEvent, fastPathEvent, escalationEvent e.message] ++
        runRobustPath env.robust 2 6 ∧
    (escalationEvent e.message).status = "progress" ∧
    (run env).fastCalls = 1 ∧
    (run env).robustCalls = 1 ∧
    (∀ ev ∈ (run env).events, ev.status = "error" →
      ev ∈ runRobustPath env.robust 2 6) := by
  have hrun : run env =
      ⟨[initEvent, fastPathEvent, escalationEvent e.message] ++
        runRobustPath env.robust 2 6, 1, 1⟩ := by
    unfold run
    simp only [hp]
    rw [if_neg (by rintro (h | h); exact hs h; exact hn h)]
    simp only [hf]
  rw [hrun]
  refine ⟨rfl, rfl, rfl, rfl, ?_⟩
  intro ev hev herr
  rcases List.mem_append.mp hev with h1 | h2
  · simp only [List.mem_cons, List.mem_singleton, List.not_mem_nil, or_false] at h1
    rcases h1 with rfl | rfl | rfl <;>
      exact absurd herr (by simp [initEvent, fastPathEvent, escalationEvent, mkOutput])
  · exact h2

/-- A fast-path failure environment: both attempts hit a request
exception, producing the retry-exhausted `NavigationError`. -/
def envEsc : Env :=
  { parse := .parsed "https" "e.com",
    attempt1 := { fetch := .error "boom", parsed := .error (.other "unused") },
    attempt2 := { fetch := .error "boom", parsed := .error (.other "unused") },
    robust :=
      { browserUp := false, contextSetup := .ok (), navigation := .ok (),
        pageContent := .ok "", parsed := .error (.other "unused") } }

/-- The exception the fast path raises in `envEsc`. -/
def escExc : PyExc :=
  .scraper (.navigationError "Requests failed to fetch URL after 2 attempts: boom")

/-- C3 witness: the escalation shape at the concrete network-failure
environment. -/
theorem c3_witness :
    (run envEsc).events =
      [initEvent, fastPathEvent, escalationEvent escExc.message] ++
        runRobustPath envEsc.robust 2 6 ∧
    (run envEsc).robustCalls = 1 :=
  ⟨(c3_escalation_once envEsc "https" "e.com" escExc rfl (by decide) (by decide)
      (by decide)).1,
   (c3_escalation_once envEsc "https" "e.com" escExc rfl (by decide) (by decide)
      (by decide)).2.2.2.1⟩

/-- Validation only touches the word-count and reading-time metadata. -/
lemma validateArticle_fields (a b : Article) (h : validateArticle a = .ok b) :
    b.scraped_with = a.scraped_with ∧ b.workflow_stages = a.workflow_stages := by
  have hs := validateArticle_ok a b h
  subst hs
  exact ⟨rfl, rfl⟩

/-- A successful fast-path attempt returns an article marked `requests`
with an empty stage history. -/
lemma fastAttemptBody_ok_fields (att : FastAttempt) (art : Article)
    (h : fastAttemptBody att = .ok art) :
    art.scraped_with = "requests" ∧ art.workflow_stages = [] := by
  unfold fastAttemptBody at h
  split at h
  · cases h
  · split at h
    · cases h
    · rename_i p article2 heq
      cases h
      have hf := validateArticle_fields _ _ heq
      exact ⟨hf.1, hf.2⟩

/-- A successful fast path returns an article marked `requests` with an
empty stage history. -/
lemma runFastPath_ok_fields (att1 att2 : FastAttempt) (art : Article)
    (h : runFastPath att1 att2 = .ok art) :
    art.scraped_with = "requests" ∧ art.workflow_stages = [] := by
  unfold runFastPath at h
  split at h
  · exact fastAttemptBody_ok_fields _ _ h
  · split at h
    · exact fastAttemptBody_ok_fields _ _ h
    · cases h

/-- The robust path's complete event carries an article marked
`playwright` whose stage history is the full eight-stage list. -/
lemma runRobustPath_complete_fields (renv : RobustEnv) (e : WorkflowOutput) (a : Article)
    (he : e ∈ runRobustPath renv 2 6) (hstat : e.status = "complete")
    (hd : e.data = some a) :
    a.scraped_with = "playwright" ∧ a.workflow_stages = WorkflowStage.allNames := by
  unfold runRobustPath at he
  split at he
  · simp only [List.mem_singleton] at he
    subst he
    exact absurd hstat (by simp [mkOutput])
  · split at he
    · simp only [List.mem_cons, List.mem_singleton, List.not_mem_nil, or_false] at he
      rcases he with rfl | rfl
      · exact absurd hstat (by simp [mkOutput])
      · rw [robustCatch_status] at hstat
        exact absurd hstat (by decide)
    · split at he
      · simp only [List.mem_cons, List.mem_singleton, List.not_mem_nil, or_false] at he
        rcases he with rfl | rfl | rfl
        · exact absurd hstat (by simp [mkOutput])
        · exact absurd hstat (by simp [mkOutput])
        · rw [robustCatch_status] at hstat
          exact absurd hstat (by decide)
      · split at he
        · simp only [List.mem_cons, List.mem_singleton, List.not_mem_nil, or_false] at he
          rcases he with rfl | rfl | rfl | rfl
          · exact absurd hstat (by simp [mkOutput])
          · exact absurd hstat (by simp [mkOutput])
          · exact absurd hstat (by simp [mkOutput])
          · rw [robustCatch_status] at hstat
            exact absurd hstat (by decide)
        · split at he
          · simp only [List.mem_cons, List.mem_singleton, List.not_mem_nil,
              or_false] at he
            rcases he with rfl | rfl | rfl | rfl | rfl
            · exact absurd hstat (by simp [mkOutput])
            · exact absurd hstat (by simp [mkOutput])
            · exact absurd hstat (by simp [mkOutput])
            · exact absurd hstat (by simp [mkOutput])
            · rw [robustCatch_status] at hstat
              exact absurd hstat (by decide)
          · split at he
            · simp only [List.mem_cons, List.mem_singleton, List.not_mem_nil,
                or_false] at he
              rcases he with rfl | rfl | rfl | rfl | rfl
              · exact absurd hstat (by simp [mkOutput])
              · exact absurd hstat (by simp [mkOutput])
              · exact absurd hstat (by simp [mkOutput])
              · exact absurd hstat (by simp [mkOutput])
              · rw [robustCatch_status] at hstat
                exact absurd hstat (by decide)
            · rename_i p article2 heq
              simp only [List.mem_cons, List.mem_singleton, List.not_mem_nil,
                or_false] at he
              rcases he with rfl | rfl | rfl | rfl | rfl
              · exact absurd hstat (by simp [mkOutput])
              · exact absurd hstat (by simp [mkOutput])
              · exact absurd hstat (by simp [mkOutput])
              · exact absurd hstat (by simp [mkOutput])
              · simp only [mkOutput, Option.some.injEq] at hd
                subst hd
                have hf := validateArticle_fields _ _ heq
                exact ⟨hf.1, hf.2⟩

/-- C10: the stage history of any completed article depends only on the
tier that produced it: the fast path reports exactly `["fast_path"]`,
the robust path reports the full eight-stage list. -/
theorem c10_stage_history (env : Env) (e : WorkflowOutput) (a : Article)
    (he : e ∈ (run env).events) (hstat : e.status = "complete")
    (hd : e.data = some a) :
    (a.scraped_with = "requests" ∧ a.workflow_stages = ["fast_path"]) ∨
    (a.scraped_with = "playwright" ∧ a.workflow_stages = WorkflowStage.allNames) := by
  unfold run at he
  split at he
  · simp only [List.mem_cons, List.mem_singleton, List.not_mem_nil, or_false] at he
    rcases he with rfl | rfl
    · exact absurd hstat (by simp [initEvent, mkOutput])
    · exact absurd hstat (by simp [validationFailedEvent, mkOutput])
  · split at he
    · simp only [List.mem_cons, List.mem_singleton, List.not_mem_nil, or_false] at he
      rcases he with rfl | rfl
      · exact absurd hstat (by simp [initEvent, mkOutput])
      · exact absurd hstat (by simp [validationFailedEvent, mkOutput])
    · split at he
      · rename_i art heq
        simp only [List.mem_cons, List.mem_singleton, List.not_mem_nil, or_false] at he
        rcases he with rfl | rfl | rfl
        · exact absurd hstat (by simp [initEvent, mkOutput])
        · exact absurd hstat (by simp [fastPathEvent, mkOutput])
        · simp only [mkOutput, Option.some.injEq] at hd
          subst hd
          have hf := runFastPath_ok_fields _ _ _ heq
          exact Or.inl ⟨hf.1, by rw [hf.2]; rfl⟩
      · rcases List.mem_append.mp he with h1 | h2
        · simp only [List.mem_cons, List.mem_singleton, List.not_mem_nil,
            or_false] at h1
          rcases h1 with rfl | rfl | rfl
          · exact absurd hstat (by simp [initEvent, mkOutput])
          · exact absurd hstat (by simp [fastPathEvent, mkOutput])
          · exact absurd hstat (by simp [escalationEvent, mkOutput])
        · exact Or.inr (runRobustPath_complete_fields env.robust e a h2 hstat hd)

/-- The validated article the fast path returns in `envDemoFast`, written
out field by field (definitionally equal to the run's payload). -/
def artDemoRes : Article :=
  { url := "https://e.com/a", domain := "e.com", title := "T",
    metadata :=
      { word_count :=
          (pyWords (strLower (String.intercalate " " (List.replicate 400 "w")).data)).length,
        reading_time_minutes :=
          max 1 (((pyWords (strLower
            (String.intercalate " " (List.replicate 400 "w")).data)).length : ℚ) / 200) },
    content_markdown := String.intercalate " " (List.replicate 400 "w"),
    content_clean_html := "<article/>",
    scraped_with := "requests", workflow_stages := ["fast_path"] }

set_option maxRecDepth 100000 in
/-- C10 witness: the fast-path article of the demo run carries exactly
`["fast_path"]`. -/
theorem c10_witness :
    (artDemoRes.scraped_with = "requests" ∧ artDemoRes.workflow_stages = ["fast_path"]) ∨
    (artDemoRes.scraped_with = "playwright" ∧
      artDemoRes.workflow_stages = WorkflowStage.allNames) :=
  c10_stage_history envDemoFast
    (mkOutput "complete" .completion 6 6 "Fast path successful" (some artDemoRes))
    artDemoRes
    (by rw [show (run envDemoFast).events =
        [initEvent, fastPathEvent,
          mkOutput "complete" .completion 6 6 "Fast path successful" (some artDemoRes)]
        from rfl]
        simp)
    rfl rfl

end Portico
